import Mathlib

/-!
Verification of the request-monitoring pipeline (Monitoramento_HRA):
shallow embedding of `core/etl.py`, `core/sla.py`, `core/risco.py` and
`core/indicadores.py`, followed by theorems settling the spec claims.

Tables are modelled column-wise: raw cells are `Option String` (with `none`
standing for a missing/NaN cell), derived columns are typed lists, and
column absence is an `Option` at table level.  Configuration values read
from `config/settings.yaml` (not under `src/`) are threaded as explicit
parameters, as the spec's §6 describes them.
-/

namespace Monitoramento

/-- Python `str.lower` on the characters occurring in this repository's
column names and keyword tables (ASCII plus accented Portuguese letters). -/
def pyLowerChar (c : Char) : Char :=
  if c = 'Á' then 'á' else if c = 'À' then 'à' else if c = 'Â' then 'â'
  else if c = 'Ã' then 'ã' else if c = 'É' then 'é' else if c = 'Ê' then 'ê'
  else if c = 'Í' then 'í' else if c = 'Ó' then 'ó' else if c = 'Ô' then 'ô'
  else if c = 'Õ' then 'õ' else if c = 'Ú' then 'ú' else if c = 'Ç' then 'ç'
  else c.toLower

/-- Python `s.lower()` (restricted as in `pyLowerChar`). -/
def pyLower (s : String) : String := ⟨s.toList.map pyLowerChar⟩

/-- Python `s.strip()`: drop leading and trailing whitespace. -/
def pyStrip (s : String) : String :=
  ⟨((s.toList.dropWhile Char.isWhitespace).reverse.dropWhile Char.isWhitespace).reverse⟩

/-- `coluna.lower().strip()`, the normalization used by `achar_coluna`. -/
def normName (s : String) : String := pyStrip (pyLower s)

/-- `core/etl.py achar_coluna`: first actual column whose normalized name
equals the normalized form of some candidate, else `none`. -/
def achar_coluna (cols possiveis : List String) : Option String :=
  let candidatos := possiveis.map normName
  cols.find? (fun coluna => candidatos.contains (normName coluna))

/-- `p` is a prefix of `t` (over characters). -/
def subAt : List Char → List Char → Bool
  | [], _ => true
  | _ :: _, [] => false
  | p :: ps, t :: ts => p == t && subAt ps ts

/-- `pat` occurs inside `txt` (over characters). -/
def hasSub (pat : List Char) : List Char → Bool
  | [] => pat.isEmpty
  | t :: ts => subAt pat (t :: ts) || hasSub pat ts

/-- Python's `pat in txt` substring test. -/
def containsSub (txt pat : String) : Bool := hasSub pat.toList txt.toList

/-- `core/etl.py _criar_status_macro.map_status`, applied to the
stripped-and-lowered situation text. -/
def map_status (txt : String) : String :=
  if containsSub txt "cancel" then "Cancelado"
  else if containsSub txt "indefer" || containsSub txt "defer" ||
          containsSub txt "finaliz" || containsSub txt "conclu" then "Concluído"
  else if containsSub txt "andamento" || containsSub txt "analise" ||
          containsSub txt "análise" || containsSub txt "pendente" then "Em andamento"
  else "Outro"

/-- The situation-column aliases of `_criar_status_macro`. -/
def possiveis_status : List String :=
  ["Situação  do Processo", "Situação do Processo", "Situação Processo"]

/-- Python `str(x)` on a possibly-NaN cell. -/
def cellStr (cell : Option String) : String := cell.getD "nan"

/-- `core/etl.py _criar_status_macro` on a table given as its column names
plus rows of raw cells: the produced `status_macro` column. -/
def criar_status_macro (cols : List String) (rows : List (String → Option String)) :
    List String :=
  match achar_coluna cols possiveis_status with
  | some c => rows.map (fun r => map_status (pyLower (pyStrip (cellStr (r c)))))
  | none => rows.map (fun _ => "Indefinido")

/-! ## SLA stage (`core/sla.py`) -/

/-- The configuration consumed by `core/sla.py` (`settings["sla"]`). -/
structure SlaConfig where
  slaPadrao : Int
  multipliers : List (String × Int)
  limiteAtrasoSevero : Int

/-- `MULTIPLIERS.get(chave, 1)`. -/
def multGet (cfg : SlaConfig) (chave : String) : Int :=
  ((cfg.multipliers.find? (fun p => p.1 == chave)).map (fun p => p.2)).getD 1

/-- `core/sla.py aplicar_sla._calc_sla`: multiplier looked up under the raw
stripped type text, times the single base value. -/
def calc_sla (cfg : SlaConfig) (tipo : String) : Int :=
  multGet cfg (pyStrip tipo) * cfg.slaPadrao

/-- `pd.cut(lead_time, [-1,30,60,90,180,365,10000], labels)` of
`_criar_faixas_lead_time` (`none` = NaN, outside every bin). -/
def faixa_lead_time (l : Int) : Option String :=
  if l ≤ -1 then none
  else if l ≤ 30 then some "0–30 dias"
  else if l ≤ 60 then some "31–60 dias"
  else if l ≤ 90 then some "61–90 dias"
  else if l ≤ 180 then some "91–180 dias"
  else if l ≤ 365 then some "181–365 dias"
  else if l ≤ 10000 then some ">365 dias"
  else none

/-- The SLA fields `aplicar_sla` adds to a record. -/
structure SlaOut where
  slaBase : Int
  slaFinal : Int
  atrasado : Bool
  atrasoSevero : Bool
  margemSla : Int
  slaCategoria : String
  faixaLeadTime : Option String
  muitoAntigo : Bool
deriving DecidableEq

/-- `core/sla.py aplicar_sla`, per record.  `tipoCell = none` models the case
where no request-type column resolved (then `sla_final = SLA_PADRAO`);
`some cell` is the record's raw cell in the resolved column. -/
def aplicar_sla_row (cfg : SlaConfig) (tipoCell : Option (Option String)) (lead : Int) :
    SlaOut :=
  let slaFinal :=
    match tipoCell with
    | some cell => calc_sla cfg (cellStr cell)
    | none => cfg.slaPadrao
  let atrasado := decide (lead > slaFinal)
  let severo := decide (lead > cfg.limiteAtrasoSevero)
  { slaBase := cfg.slaPadrao
    slaFinal := slaFinal
    atrasado := atrasado
    atrasoSevero := severo
    margemSla := slaFinal - lead
    slaCategoria :=
      if severo then "Atraso Severo" else if atrasado then "Atrasado" else "Dentro do prazo"
    faixaLeadTime := faixa_lead_time lead
    muitoAntigo := decide (lead > 365) }

/-- A working table: raw column names, rows of raw cells, and the `lead_time`
column (absent when `none`; `aplicar_sla` then creates it with zeros). -/
structure PTable where
  cols : List String
  rows : List (String → Option String)
  leadTimes : Option (List Int)

/-- The request-type aliases of `aplicar_sla`. -/
def possiveis_tipo : List String :=
  ["Tipo da solicitação", "Tipo da Solicitação", "Tipo Solicitação"]

/-- The effective `lead_time` column (zeros when the column is absent). -/
def PTable.leads (t : PTable) : List Int :=
  match t.leadTimes with
  | some ls => ls
  | none => List.replicate t.rows.length 0

/-- `core/sla.py aplicar_sla` over a whole table: resolves the type column
once, then computes every record's SLA fields. -/
def aplicar_sla_table (cfg : SlaConfig) (t : PTable) : List SlaOut :=
  let colTipo := achar_coluna t.cols possiveis_tipo
  (t.rows.zip t.leads).map (fun rl =>
    aplicar_sla_row cfg (colTipo.map (fun c => rl.1 c)) rl.2)

/-! ## Risk stage (`core/risco.py`) -/

/-- The configuration consumed by `core/risco.py` (`settings["risco"]`). -/
structure RiscoConfig where
  pesos : List (String × Int)
  limiteLead : Int

/-- `PESOS.get(k, 0)`. -/
def peso (cfg : RiscoConfig) (k : String) : Int :=
  ((cfg.pesos.find? (fun p => p.1 == k)).map (fun p => p.2)).getD 0

/-- The per-record inputs `calcular_risco` reads.  An outer `none` models the
whole column being absent (the condition is then false); `sei`/`resp` carry
the raw cell of the resolved column, with inner `none` for a NaN cell. -/
structure RiscoRow where
  atrasado : Option Bool
  statusMacro : Option String
  leadTime : Option Int
  sei : Option (Option String)
  resp : Option (Option String)
deriving DecidableEq

/-- `df["atrasado"].fillna(False)`, or false when the column is absent. -/
def cond_atraso (r : RiscoRow) : Bool := r.atrasado.getD false

/-- `df["status_macro"].eq("Cancelado")`, or false when absent. -/
def cond_cancelado (r : RiscoRow) : Bool := r.statusMacro == some "Cancelado"

/-- `df["lead_time"].gt(LIMITE_LEAD)`, or false when absent. -/
def cond_lead_extremo (cfg : RiscoConfig) (r : RiscoRow) : Bool :=
  match r.leadTime with
  | some l => decide (l > cfg.limiteLead)
  | none => false

/-- `df[col_sei].astype(str).str.strip().str.len().eq(0)`, or false when no
SEI column exists (a NaN cell stringifies to "nan", so it does not count). -/
def cond_falha_sei (r : RiscoRow) : Bool :=
  match r.sei with
  | some cell => (pyStrip (cellStr cell)).length == 0
  | none => false

/-- `df[col_resp].isna() | (df[col_resp].astype(str).str.strip() == "")`,
or false when no responsible column exists. -/
def cond_sem_resp (r : RiscoRow) : Bool :=
  match r.resp with
  | some cell => cell.isNone || (pyStrip (cellStr cell) == "")
  | none => false

/-- `cond.astype(int)`. -/
def b2i (b : Bool) : Int := if b then 1 else 0

/-- The accumulated `risco_score` of one record: the five weighted-condition
increments of `calcular_risco`, in statement order. -/
def risco_score (cfg : RiscoConfig) (r : RiscoRow) : Int :=
  0 + b2i (cond_atraso r) * peso cfg "atraso"
    + b2i (cond_cancelado r) * peso cfg "cancelado"
    + b2i (cond_lead_extremo cfg r) * peso cfg "lead_time_extremo"
    + b2i (cond_falha_sei r) * peso cfg "falha_sei"
    + b2i (cond_sem_resp r) * peso cfg "sem_responsavel"

/-- `pd.cut(risco_score, [-1,20,50,1000], ["Baixo","Moderado","Alto"])`
(`none` = NaN, outside every bin). -/
def risco_cut (s : Int) : Option String :=
  if s ≤ -1 then none
  else if s ≤ 20 then some "Baixo"
  else if s ≤ 50 then some "Moderado"
  else if s ≤ 1000 then some "Alto"
  else none

/-- `core/risco.py calcular_risco._dimensao_principal` on the three flags. -/
def dimensao_principal (tempo oper gov : Bool) : String :=
  let ativos :=
    (if tempo then ["Tempo"] else []) ++ (if oper then ["Operacional"] else []) ++
      (if gov then ["Governança"] else [])
  match ativos with
  | [] => "Nenhum"
  | [x] => x
  | _ => "Misto"

/-- The risk fields `calcular_risco` adds to a record. -/
structure RiscoOut where
  riscoScore : Int
  riscoCategoria : Option String
  riscoTempoFlag : Bool
  riscoOperacionalFlag : Bool
  riscoGovernancaFlag : Bool
  riscoDimensaoPrincipal : String
deriving DecidableEq

/-- `core/risco.py calcular_risco`, per record (success path). -/
def calcular_risco_row (cfg : RiscoConfig) (r : RiscoRow) : RiscoOut :=
  let tempo := cond_atraso r || cond_lead_extremo cfg r
  let oper := cond_sem_resp r || cond_falha_sei r
  let gov := cond_cancelado r
  { riscoScore := risco_score cfg r
    riscoCategoria := risco_cut (risco_score cfg r)
    riscoTempoFlag := tempo
    riscoOperacionalFlag := oper
    riscoGovernancaFlag := gov
    riscoDimensaoPrincipal := dimensao_principal tempo oper gov }

/-- The five risk conditions of `calcular_risco`, as named entities. -/
inductive RiskCond
  | atraso
  | cancelado
  | leadExtremo
  | falhaSei
  | semResp
deriving DecidableEq

/-- Whether a condition holds on a record. -/
def condHolds (cfg : RiscoConfig) (r : RiscoRow) : RiskCond → Bool
  | .atraso => cond_atraso r
  | .cancelado => cond_cancelado r
  | .leadExtremo => cond_lead_extremo cfg r
  | .falhaSei => cond_falha_sei r
  | .semResp => cond_sem_resp r

/-- The `PESOS` key of each condition. -/
def pesoKey : RiskCond → String
  | .atraso => "atraso"
  | .cancelado => "cancelado"
  | .leadExtremo => "lead_time_extremo"
  | .falhaSei => "falha_sei"
  | .semResp => "sem_responsavel"

/-- The five conditions, in the statement order of `calcular_risco`. -/
def allConds : List RiskCond := [.atraso, .cancelado, .leadExtremo, .falhaSei, .semResp]

/-! ### Exception semantics of `calcular_risco` (claim C3)

`calcular_risco` wraps its whole body in `try/except`; the `except` branch
creates each output column only when it is still missing.  We model the
column state reached after the first `k` statements of the body and push it
through that fill: statement 1 creates `risco_score = 0`, statements 2-6 add
the five weighted conditions, 7 buckets, 8-10 create the three dimension
flags, 11 creates the dominant dimension. -/

/-- The output columns of `calcular_risco` (`none` = column not created). -/
structure RiscoCols where
  score : Option (List Int)
  categoria : Option (List (Option String))
  tempo : Option (List Bool)
  oper : Option (List Bool)
  gov : Option (List Bool)
  dim : Option (List String)
deriving DecidableEq

/-- The score after the first `m` of the five weighted-condition additions. -/
def risco_score_upto (cfg : RiscoConfig) (m : Nat) (r : RiscoRow) : Int :=
  0 + (if 1 ≤ m then b2i (cond_atraso r) * peso cfg "atraso" else 0)
    + (if 2 ≤ m then b2i (cond_cancelado r) * peso cfg "cancelado" else 0)
    + (if 3 ≤ m then b2i (cond_lead_extremo cfg r) * peso cfg "lead_time_extremo" else 0)
    + (if 4 ≤ m then b2i (cond_falha_sei r) * peso cfg "falha_sei" else 0)
    + (if 5 ≤ m then b2i (cond_sem_resp r) * peso cfg "sem_responsavel" else 0)

/-- Column state of `calcular_risco` after its first `k` statements. -/
def risco_state (cfg : RiscoConfig) (rs : List RiscoRow) (k : Nat) : RiscoCols :=
  { score := if 1 ≤ k then some (rs.map (fun r => risco_score_upto cfg (k - 1) r)) else none
    categoria := if 7 ≤ k then some (rs.map (fun r => risco_cut (risco_score cfg r))) else none
    tempo := if 8 ≤ k then some (rs.map (fun r => cond_atraso r || cond_lead_extremo cfg r)) else none
    oper := if 9 ≤ k then some (rs.map (fun r => cond_sem_resp r || cond_falha_sei r)) else none
    gov := if 10 ≤ k then some (rs.map (fun r => cond_cancelado r)) else none
    dim := if 11 ≤ k then
        some (rs.map (fun r =>
          dimensao_principal (cond_atraso r || cond_lead_extremo cfg r)
            (cond_sem_resp r || cond_falha_sei r) (cond_cancelado r)))
      else none }

/-- The `except` branch of `calcular_risco`: create each output column that
is still missing, with its default value, leaving present columns as-is. -/
def risco_fill (n : Nat) (s : RiscoCols) : RiscoCols :=
  { score := some (s.score.getD (List.replicate n 0))
    categoria := some (s.categoria.getD (List.replicate n (some "Indefinido")))
    tempo := some (s.tempo.getD (List.replicate n false))
    oper := some (s.oper.getD (List.replicate n false))
    gov := some (s.gov.getD (List.replicate n false))
    dim := some (s.dim.getD (List.replicate n "Indefinido")) }

/-- `calcular_risco` when an exception interrupts it after its first `k`
statements: the partial column state passes through the `except` branch
and is returned (the exception does not propagate). -/
def calcular_risco_exn (cfg : RiscoConfig) (rs : List RiscoRow) (k : Nat) : RiscoCols :=
  risco_fill rs.length (risco_state cfg rs k)

/-! ## Pipeline composition (app.py `carregar_dados`) -/

/-- `possiveis_colunas_sei` of `calcular_risco` (exact membership test). -/
def sei_cols : List String := ["Andamento SEI", "SEI"]

/-- `possiveis_resp` of `calcular_risco` (exact membership test). -/
def possiveis_resp_risco : List String :=
  ["Responsável", "Responsável Técnico", "Responsavel Técnico", "Responsavel Tecnico"]

/-- Build the risk-stage input of one record from the raw row, the raw
columns and the upstream ETL/SLA outputs.  `core/risco.py` resolves the SEI
and responsible columns by exact membership, not via `achar_coluna`. -/
def risco_row_of (cols : List String) (row : String → Option String)
    (statusMacro : String) (atrasado : Bool) (lead : Int) : RiscoRow :=
  { atrasado := some atrasado
    statusMacro := some statusMacro
    leadTime := some lead
    sei := (sei_cols.find? (fun c => cols.contains c)).map row
    resp := (possiveis_resp_risco.find? (fun c => cols.contains c)).map row }

/-- The derived fields a record carries after the full pipeline. -/
structure PipeOut where
  statusMacro : String
  sla : SlaOut
  risco : RiscoOut
deriving DecidableEq

/-- app.py `carregar_dados`: ETL status stage, then SLA stage, then risk
stage, restricted to the derived fields (`leadTimes` stands for the
lead-time column the ETL creates). -/
def pipeline (scfg : SlaConfig) (rcfg : RiscoConfig) (t : PTable) : List PipeOut :=
  let status := criar_status_macro t.cols t.rows
  let colTipo := achar_coluna t.cols possiveis_tipo
  ((t.rows.zip t.leads).zip status).map (fun rls =>
    let sla := aplicar_sla_row scfg (colTipo.map (fun c => rls.1.1 c)) rls.1.2
    { statusMacro := rls.2
      sla := sla
      risco := calcular_risco_row rcfg
          (risco_row_of t.cols rls.1.1 rls.2 sla.atrasado rls.1.2) })

/-! ## Indicator aggregators (`core/indicadores.py`) -/

/-- The enriched table the aggregators consume: raw columns plus the derived
columns they guard on, each `none` when the column is absent. -/
structure ATable where
  cols : List String
  rows : List (String → Option String)
  leadTimes : Option (List Int)
  atrasados : Option (List Bool)
  statusMacroCol : Option (List String)
  muitoAntigoCol : Option (List Bool)
  temSeiCol : Option (List Bool)

/-- `_garantir_status_macro`: reuse the column when present, else rebuild it
exactly as `_criar_status_macro` does. -/
def garantir_status_macro (t : ATable) : List String :=
  match t.statusMacroCol with
  | some l => l
  | none => criar_status_macro t.cols t.rows

/-- `_garantir_atrasado`: the column, or all-false when absent. -/
def garantir_atrasado (t : ATable) : List Bool :=
  t.atrasados.getD (List.replicate t.rows.length false)

/-- Python `round` to an integer (half to even). -/
def pyRoundInt (q : Rat) : Int :=
  let f := q.floor
  let r := q - f
  if r < 1 / 2 then f else if 1 / 2 < r then f + 1 else if f % 2 = 0 then f else f + 1

/-- Python `round(q, 2)`. -/
def pyRound2 (q : Rat) : Rat := (pyRoundInt (q * 100) : Rat) / 100

/-- Python `round(q, 1)`. -/
def pyRound1 (q : Rat) : Rat := (pyRoundInt (q * 10) : Rat) / 10

/-- Python `int(q)` (truncation toward zero). -/
def ratTrunc (q : Rat) : Int := if q < 0 then -((-q).floor) else q.floor

/-- The mean of a list of integers, as a rational. -/
def mean (ls : List Int) : Rat := ((ls.foldl (· + ·) 0 : Int) : Rat) / (ls.length : Rat)

/-- Pandas `Series.quantile` with linear interpolation, on a sorted list. -/
def quantileSorted (s : List Int) (q : Rat) : Rat :=
  let h : Rat := q * ((s.length : Rat) - 1)
  let i : Int := h.floor
  let lo : Rat := (s.getD i.toNat 0 : Int)
  let hi : Rat := (s.getD (i.toNat + 1) (s.getD i.toNat 0) : Int)
  lo + (h - (i : Rat)) * (hi - lo)

/-- Ascending sort of integer values. -/
def sortInts (ls : List Int) : List Int := ls.mergeSort (fun a b => decide (a ≤ b))

/-- The dictionary returned by `calcular_kpis_executivos`. -/
structure KpisExec where
  total : Nat
  concluidas : Nat
  atrasadas : Nat
  canceladas : Nat
  taxaConclusao : Rat
  taxaAtraso : Rat
deriving DecidableEq

/-- `core/indicadores.py calcular_kpis_executivos`. -/
def calcular_kpis_executivos (t : ATable) : KpisExec :=
  let st := garantir_status_macro t
  let atr := garantir_atrasado t
  let total := t.rows.length
  let concluido := (st.filter (fun s => s == "Concluído")).length
  let atrasado := (atr.filter (fun b => b)).length
  let cancelado := (st.filter (fun s => s == "Cancelado")).length
  { total := total
    concluidas := concluido
    atrasadas := atrasado
    canceladas := cancelado
    taxaConclusao :=
      if total > 0 then pyRound2 ((concluido : Rat) / (total : Rat) * 100) else 0
    taxaAtraso :=
      if total > 0 then pyRound2 ((atrasado : Rat) / (total : Rat) * 100) else 0 }

/-- The dictionary returned by `calcular_kpis_avancados`. -/
structure KpisAvanc where
  leadMedia : Rat
  leadMediana : Rat
  leadP75 : Int
  leadP90 : Int
  leadP95 : Int
  qtdMuitoAntigo : Int
  qtdSemSei : Int
  qtdSemResponsavel : Int
deriving DecidableEq

/-- `possiveis_resp` of `calcular_kpis_avancados` (resolved via
`achar_coluna`, unlike the risk stage's exact membership list). -/
def possiveis_resp_kpi : List String :=
  ["Responsável", "Responsável Técnico", "Responsavel Tecnico"]

/-- `core/indicadores.py calcular_kpis_avancados`. -/
def calcular_kpis_avancados (t : ATable) : KpisAvanc :=
  let total := t.rows.length
  let stats : Rat × Rat × Rat × Rat × Rat :=
    match t.leadTimes with
    | some lt =>
      if total > 0 then
        let s := sortInts lt
        (mean lt, quantileSorted s (1 / 2), quantileSorted s (3 / 4),
          quantileSorted s (9 / 10), quantileSorted s (19 / 20))
      else (0, 0, 0, 0, 0)
    | none => (0, 0, 0, 0, 0)
  let muitoAntigo : Int :=
    match t.muitoAntigoCol with
    | some ms => ((ms.filter (fun b => b)).length : Int)
    | none => 0
  let semSei : Int :=
    match t.temSeiCol with
    | some l => ((l.filter (fun b => !b)).length : Int)
    | none => 0
  let semResp : Int :=
    match achar_coluna t.cols possiveis_resp_kpi with
    | some c =>
      ((t.rows.filter (fun r => (r c).isNone || (pyStrip (cellStr (r c)) == ""))).length : Int)
    | none => 0
  { leadMedia := pyRound1 stats.1
    leadMediana := pyRound1 stats.2.1
    leadP75 := ratTrunc stats.2.2.1
    leadP90 := ratTrunc stats.2.2.2.1
    leadP95 := ratTrunc stats.2.2.2.2
    qtdMuitoAntigo := muitoAntigo
    qtdSemSei := semSei
    qtdSemResponsavel := semResp }

/-- Pandas `value_counts`: pairs (value, count), counts descending (stable
over first appearance). -/
def valueCounts (l : List String) : List (String × Nat) :=
  let keys := l.foldl (fun acc s => if acc.contains s then acc else acc ++ [s]) []
  (keys.map (fun k => (k, (l.filter (fun x => x == k)).length))).mergeSort
    (fun a b => decide (b.2 ≤ a.2))

/-- One row of the operational funnel. -/
structure FunilRow where
  statusMacro : String
  quantidade : Nat
  percentual : Rat
deriving DecidableEq

/-- `core/indicadores.py funil_operacional`. -/
def funil_operacional (t : ATable) : List FunilRow :=
  let st := garantir_status_macro t
  let n := t.rows.length
  (valueCounts st).map (fun kv =>
    { statusMacro := kv.1
      quantidade := kv.2
      percentual := if n > 0 then pyRound2 ((kv.2 : Rat) / (n : Rat) * 100) else 0 })

/-- `core/indicadores.py top_processos_criticos`: the selected records'
lead times, descending; empty when the `lead_time` column is absent. -/
def top_processos_criticos (t : ATable) (n : Nat) : List Int :=
  match t.leadTimes with
  | some lt => (lt.mergeSort (fun a b => decide (b ≤ a))).take n
  | none => []

/-- One row of the breach-rate-by-group table. -/
structure TaxaRow where
  grupo : String
  total : Nat
  atrasadas : Nat
  taxa : Rat
deriving DecidableEq

/-- `core/indicadores.py tabela_taxa_atraso_por` (groupby drops NaN keys;
group keys ascending, then the table is re-sorted by rate descending). -/
def tabela_taxa_atraso_por (t : ATable) (coluna : String) : List TaxaRow :=
  if t.cols.contains coluna then
    let atr := garantir_atrasado t
    let cells := t.rows.map (fun r => r coluna)
    let keys0 := (cells.filterMap id).foldl
      (fun acc s => if acc.contains s then acc else acc ++ [s]) []
    let keys := keys0.mergeSort (fun a b => decide (a ≤ b))
    let pares := cells.zip atr
    (keys.map (fun k =>
      let tot := (pares.filter (fun p => p.1 == some k)).length
      let atrs := (pares.filter (fun p => p.1 == some k && p.2)).length
      { grupo := k
        total := tot
        atrasadas := atrs
        taxa := pyRound2 ((atrs : Rat) / (tot : Rat) * 100) : TaxaRow })).mergeSort
      (fun a b => decide (b.taxa ≤ a.taxa))
  else []

/-- One row of the lead-time-by-group table. -/
structure LeadRow where
  grupo : String
  total : Nat
  media : Rat
  mediana : Rat
  p75 : Rat
  p90 : Rat
deriving DecidableEq

/-- `core/indicadores.py tabela_leadtime_por`. -/
def tabela_leadtime_por (t : ATable) (coluna : String) : List LeadRow :=
  match t.leadTimes with
  | some lt =>
    if t.cols.contains coluna then
      let cells := t.rows.map (fun r => r coluna)
      let pares := cells.zip lt
      let keys0 := (cells.filterMap id).foldl
        (fun acc s => if acc.contains s then acc else acc ++ [s]) []
      let keys := keys0.mergeSort (fun a b => decide (a ≤ b))
      keys.map (fun k =>
        let ls := (pares.filter (fun p => p.1 == some k)).map (fun p => p.2)
        let s := sortInts ls
        { grupo := k
          total := ls.length
          media := pyRound1 (mean ls)
          mediana := pyRound1 (quantileSorted s (1 / 2))
          p75 := pyRound1 (quantileSorted s (3 / 4))
          p90 := pyRound1 (quantileSorted s (9 / 10)) })
    else []
  | none => []

/-! ## Claimed behaviors modelled from the spec's words

These definitions follow the spec sentences of the corrected claims; they
are compared against the embeddings above and are not part of the source. -/

/-- Modelled from the spec (§4.3): the claimed `type_simplified`
classification by ordered substring match on the raw request-type text.
No corresponding code exists in `core/sla.py`. -/
def spec_tipo_simplificado (t : String) : String :=
  if containsSub t "adesão" || containsSub t "adesao" then "adesao"
  else if containsSub t "ata de registro" || containsSub t "arp" then "arp"
  else if containsSub t "registro" then "registro"
  else "outros"

/-- Modelled from the spec (§4.3): the claimed `sla_target`, the per-type
base value (the single configured base) times the multiplier looked up
under the simplified type (multiplier 1 when the key is missing). -/
def spec_sla_target (cfg : SlaConfig) (t : String) : Int :=
  multGet cfg (spec_tipo_simplificado t) * cfg.slaPadrao

/-- The status keyword map exactly as claim C7 states it: it lacks the
accented keyword "análise" that the code also matches. -/
def spec_map_status (txt : String) : String :=
  if containsSub txt "cancel" then "Cancelado"
  else if containsSub txt "indefer" || containsSub txt "defer" ||
          containsSub txt "finaliz" || containsSub txt "conclu" then "Concluído"
  else if containsSub txt "andamento" || containsSub txt "analise" ||
          containsSub txt "pendente" then "Em andamento"
  else "Outro"

/-- Any keyword of the list occurs in the text. -/
def kwAny (txt : String) (kws : List String) : Bool := kws.any (fun k => containsSub txt k)

/-- Claim C7 as amended: the claimed precedence with "análise" added to the
in-progress keyword group. -/
def spec_map_status_amd (txt : String) : String :=
  if kwAny txt ["cancel"] then "Cancelado"
  else if kwAny txt ["indefer", "defer", "finaliz", "conclu"] then "Concluído"
  else if kwAny txt ["andamento", "analise", "análise", "pendente"] then "Em andamento"
  else "Outro"

/-! ## Concrete fixtures used by witnesses -/

/-- A concrete SLA configuration (base 10, no multipliers, huge severe
threshold). -/
def scfgC5 : SlaConfig := ⟨10, [], 10000⟩

/-- A concrete risk configuration (weight 5 on "atraso"). -/
def rcfgC5 : RiscoConfig := ⟨[("atraso", 5)], 365⟩

/-- A concrete one-row table with a resolvable situation column. -/
def tC5 : PTable :=
  ⟨["Situação do Processo"],
   [fun c => if c = "Situação do Processo" then some "Em andamento" else none],
   some [400]⟩

/-- The single record produced by the pipeline on `tC5`. -/
def pC5 : PipeOut :=
  (pipeline scfgC5 rcfgC5 tC5).headD
    { statusMacro := ""
      sla := aplicar_sla_row scfgC5 none 0
      risco := calcular_risco_row rcfgC5 ⟨none, none, none, none, none⟩ }

/-! ## Helper lemmas -/

theorem b2i_mul (b : Bool) (w : Int) : b2i b * w = if b then w else 0 := by
  cases b <;> simp [b2i]

theorem risco_score_upto_ge (cfg : RiscoConfig) (m : Nat) (r : RiscoRow) (h : 5 ≤ m) :
    risco_score_upto cfg m r = risco_score cfg r := by
  unfold risco_score_upto risco_score
  have h1 : 1 ≤ m := by omega
  have h2 : 2 ≤ m := by omega
  have h3 : 3 ≤ m := by omega
  have h4 : 4 ≤ m := by omega
  simp [h1, h2, h3, h4, h]

theorem map_status_mem (txt : String) :
    map_status txt ∈ ["Cancelado", "Concluído", "Em andamento", "Outro"] := by
  unfold map_status
  split_ifs <;> simp

theorem sla_categoria_mem (cfg : SlaConfig) (tipoCell : Option (Option String)) (lead : Int) :
    (aplicar_sla_row cfg tipoCell lead).slaCategoria ∈
      ["Atraso Severo", "Atrasado", "Dentro do prazo"] := by
  unfold aplicar_sla_row
  dsimp only
  split_ifs <;> simp

theorem risco_cut_isSome (s : Int) (h1 : -1 < s) (h2 : s ≤ 1000) :
    (risco_cut s).isSome = true := by
  unfold risco_cut
  split_ifs <;> first | rfl | omega

theorem status_macro_mem (cols : List String) (rows : List (String → Option String))
    (s : String) (hs : s ∈ criar_status_macro cols rows) :
    s ∈ ["Cancelado", "Concluído", "Em andamento", "Outro", "Indefinido"] := by
  unfold criar_status_macro at hs
  cases h : achar_coluna cols possiveis_status with
  | some c =>
    rw [h] at hs
    obtain ⟨r, _, rfl⟩ := List.mem_map.mp hs
    have := map_status_mem (pyLower (pyStrip (cellStr (r c))))
    simp only [List.mem_cons, List.not_mem_nil, or_false] at this ⊢
    tauto
  | none =>
    rw [h] at hs
    obtain ⟨r, _, rfl⟩ := List.mem_map.mp hs
    simp

/-! ## Claims -/

/-- **C4.** For every record, risk-score bucketing uses fixed boundaries that
are inclusive on the lower bucket: score 20 → "Baixo", 21 → "Moderado",
50 → "Moderado", 51 → "Alto"; and every record's `risco_categoria` is
exactly the bucketing of its `risco_score`. -/
theorem c4_bucket_boundaries :
    risco_cut 20 = some "Baixo" ∧ risco_cut 21 = some "Moderado" ∧
    risco_cut 50 = some "Moderado" ∧ risco_cut 51 = some "Alto" ∧
    ∀ (cfg : RiscoConfig) (r : RiscoRow),
      (calcular_risco_row cfg r).riscoCategoria = risco_cut (risco_score cfg r) :=
  ⟨by decide, by decide, by decide, by decide, fun _ _ => rfl⟩

/-- **C6.** The dominant risk dimension is computed from the three flag
groups (Tempo = breached ∨ extreme-age, Operacional = owner-empty ∨
progress-log-empty, Governança = cancelled) and equals "Nenhum" when no
group fires, the single group's name when exactly one fires, and "Misto"
when two or more fire. -/
theorem c6_dimensao_principal :
    (∀ (cfg : RiscoConfig) (r : RiscoRow),
      (calcular_risco_row cfg r).riscoDimensaoPrincipal =
        dimensao_principal (cond_atraso r || cond_lead_extremo cfg r)
          (cond_sem_resp r || cond_falha_sei r) (cond_cancelado r)) ∧
    ∀ tempo oper gov : Bool,
      dimensao_principal tempo oper gov =
        (if tempo.toNat + oper.toNat + gov.toNat = 0 then "Nenhum"
         else if tempo.toNat + oper.toNat + gov.toNat = 1 then
           (if tempo then "Tempo" else if oper then "Operacional" else "Governança")
         else "Misto") := by
  refine ⟨fun _ _ => rfl, ?_⟩
  intro tempo oper gov
  cases tempo <;> cases oper <;> cases gov <;> rfl

/-- **C10.** "Atraso Severo" takes precedence over "Atrasado" in
`sla_categoria`: every record whose lead time exceeds the configured severe
threshold is labeled "Atraso Severo", even when it is not SLA-breached
(when lead_time ≤ sla_final its breached flag is false). -/
theorem c10_severo_precedence (cfg : SlaConfig) (tipoCell : Option (Option String))
    (lead : Int) (h : lead > cfg.limiteAtrasoSevero) :
    (aplicar_sla_row cfg tipoCell lead).slaCategoria = "Atraso Severo" ∧
    (lead ≤ (aplicar_sla_row cfg tipoCell lead).slaFinal →
      (aplicar_sla_row cfg tipoCell lead).atrasado = false) := by
  constructor
  · simp [aplicar_sla_row, h]
  · intro hle
    simp only [aplicar_sla_row] at hle ⊢
    simp only [decide_eq_false_iff_not]
    omega

/-- Witness for C10: base 10, multiplier 20 for type "X" (so sla_final =
200), severe threshold 180, lead time 190: severely late yet not breached. -/
theorem c10_witness :
    (aplicar_sla_row ⟨10, [("X", 20)], 180⟩ (some (some "X")) 190).slaCategoria =
      "Atraso Severo" ∧
    (aplicar_sla_row ⟨10, [("X", 20)], 180⟩ (some (some "X")) 190).atrasado = false :=
  ⟨(c10_severo_precedence ⟨10, [("X", 20)], 180⟩ (some (some "X")) 190 (by decide)).1,
    (c10_severo_precedence ⟨10, [("X", 20)], 180⟩ (some (some "X")) 190 (by decide)).2
      (by decide)⟩

/-- **C1 counterexample.** With base 10 and multiplier table {"adesao" ↦ 3},
the claim classifies the raw type "adesao x" as simplified type "adesao" and
predicts sla_target = 3 × 10 = 30, but `aplicar_sla` keys the multiplier
lookup on the raw stripped text "adesao x" (absent, so multiplier 1) and
produces sla_final = 10. -/
theorem c1_counterexample :
    spec_tipo_simplificado "adesao x" = "adesao" ∧
    spec_sla_target ⟨10, [("adesao", 3)], 180⟩ "adesao x" = 30 ∧
    (aplicar_sla_row ⟨10, [("adesao", 3)], 180⟩ (some (some "adesao x")) 0).slaFinal = 10 ∧
    (10 : Int) ≠ 30 := by decide

/-- **C1 (amended).** The SLA stage computes no simplified-type
classification: when a request-type column resolves, each record's
`sla_final` is the multiplier looked up under the record's raw stripped
request-type text times the single configured base, with multiplier 1 when
that exact key is absent from the lookup table; when no request-type column
resolves, every record's `sla_final` is the configured base. -/
theorem c1_sla_final_amended (cfg : SlaConfig) (t : PTable) :
    ((achar_coluna t.cols possiveis_tipo).isNone →
      ∀ s ∈ aplicar_sla_table cfg t, s.slaFinal = cfg.slaPadrao) ∧
    (∀ c, achar_coluna t.cols possiveis_tipo = some c →
      aplicar_sla_table cfg t =
        (t.rows.zip t.leads).map (fun rl => aplicar_sla_row cfg (some (rl.1 c)) rl.2)) ∧
    (∀ cell lead, (aplicar_sla_row cfg (some cell) lead).slaFinal =
      multGet cfg (pyStrip (cellStr cell)) * cfg.slaPadrao) ∧
    (∀ chave, (cfg.multipliers.find? (fun p => p.1 == chave)).isNone →
      multGet cfg chave = 1) := by
  refine ⟨?_, ?_, ?_, ?_⟩
  · intro hnone s hs
    cases hopt : achar_coluna t.cols possiveis_tipo with
    | some c => rw [hopt] at hnone; simp at hnone
    | none =>
      unfold aplicar_sla_table at hs
      rw [hopt] at hs
      simp only [Option.map_none'] at hs
      obtain ⟨rl, _, rfl⟩ := List.mem_map.mp hs
      rfl
  · intro c hc
    unfold aplicar_sla_table
    rw [hc]
    rfl
  · intro cell lead; rfl
  · intro chave h
    unfold multGet
    cases hf : cfg.multipliers.find? (fun p => p.1 == chave) with
    | some p => rw [hf] at h; simp at h
    | none => rfl

/-- Witness for C1 (amended): a table whose single column is not a
request-type alias gets the base SLA, and a key absent from the multiplier
table yields multiplier 1. -/
theorem c1_witness :
    (aplicar_sla_row (⟨5, [], 100⟩ : SlaConfig) none 3).slaFinal = 5 ∧
    multGet (⟨5, [], 100⟩ : SlaConfig) "zzz" = 1 := by
  constructor
  · exact (c1_sla_final_amended ⟨5, [], 100⟩ ⟨["A"], [fun _ => some "x"], some [3]⟩).1
      (by decide) (aplicar_sla_row ⟨5, [], 100⟩ none 3) (by decide)
  · exact (c1_sla_final_amended ⟨5, [], 100⟩ ⟨["A"], [fun _ => some "x"], some [3]⟩).2.2.2
      "zzz" (by decide)

/-- **C2.** `risco_score` is the sum of the configured weights of the five
risk conditions that hold; flipping any single condition from false to true
while the other four are fixed changes the score by exactly that
condition's configured weight, and never decreases it when the weight is
non-negative. -/
theorem c2_score_sum_and_flip :
    (∀ (cfg : RiscoConfig) (r : RiscoRow),
      risco_score cfg r =
        (allConds.map (fun c => if condHolds cfg r c then peso cfg (pesoKey c) else 0)).sum) ∧
    ∀ (cfg : RiscoConfig) (c : RiskCond) (r r' : RiscoRow),
      condHolds cfg r c = true → condHolds cfg r' c = false →
      (∀ c', c' ≠ c → condHolds cfg r c' = condHolds cfg r' c') →
      risco_score cfg r = risco_score cfg r' + peso cfg (pesoKey c) ∧
        (0 ≤ peso cfg (pesoKey c) → risco_score cfg r' ≤ risco_score cfg r) := by
  constructor
  · intro cfg r
    simp only [risco_score, allConds, condHolds, pesoKey, b2i_mul, List.map_cons,
      List.map_nil, List.sum_cons, List.sum_nil]
    ring
  · intro cfg c r r' h1 h0 hoth
    have key : risco_score cfg r = risco_score cfg r' + peso cfg (pesoKey c) := by
      cases c with
      | atraso =>
        have e2 := hoth .cancelado (by decide)
        have e3 := hoth .leadExtremo (by decide)
        have e4 := hoth .falhaSei (by decide)
        have e5 := hoth .semResp (by decide)
        simp only [condHolds, pesoKey] at h1 h0 e2 e3 e4 e5 ⊢
        simp only [risco_score, h1, h0, e2, e3, e4, e5, b2i]
        simp
        try ring
      | cancelado =>
        have e1 := hoth .atraso (by decide)
        have e3 := hoth .leadExtremo (by decide)
        have e4 := hoth .falhaSei (by decide)
        have e5 := hoth .semResp (by decide)
        simp only [condHolds, pesoKey] at h1 h0 e1 e3 e4 e5 ⊢
        simp only [risco_score, h1, h0, e1, e3, e4, e5, b2i]
        simp
        try ring
      | leadExtremo =>
        have e1 := hoth .atraso (by decide)
        have e2 := hoth .cancelado (by decide)
        have e4 := hoth .falhaSei (by decide)
        have e5 := hoth .semResp (by decide)
        simp only [condHolds, pesoKey] at h1 h0 e1 e2 e4 e5 ⊢
        simp only [risco_score, h1, h0, e1, e2, e4, e5, b2i]
        simp
        try ring
      | falhaSei =>
        have e1 := hoth .atraso (by decide)
        have e2 := hoth .cancelado (by decide)
        have e3 := hoth .leadExtremo (by decide)
        have e5 := hoth .semResp (by decide)
        simp only [condHolds, pesoKey] at h1 h0 e1 e2 e3 e5 ⊢
        simp only [risco_score, h1, h0, e1, e2, e3, e5, b2i]
        simp
        try ring
      | semResp =>
        have e1 := hoth .atraso (by decide)
        have e2 := hoth .cancelado (by decide)
        have e3 := hoth .leadExtremo (by decide)
        have e4 := hoth .falhaSei (by decide)
        simp only [condHolds, pesoKey] at h1 h0 e1 e2 e3 e4 ⊢
        simp only [risco_score, h1, h0, e1, e2, e3, e4, b2i]
        simp
        try ring
    exact ⟨key, fun hp => by omega⟩

/-- Witness for C2: weight 7 on "atraso"; flipping the breach flag from
false to true raises the score by exactly 7. -/
theorem c2_witness :
    risco_score ⟨[("atraso", 7)], 365⟩ ⟨some true, none, none, none, none⟩ =
      risco_score ⟨[("atraso", 7)], 365⟩ ⟨some false, none, none, none, none⟩ +
        peso ⟨[("atraso", 7)], 365⟩ (pesoKey .atraso) :=
  (c2_score_sum_and_flip.2 ⟨[("atraso", 7)], 365⟩ .atraso
    ⟨some true, none, none, none, none⟩ ⟨some false, none, none, none, none⟩
    (by decide) (by decide)
    (fun c' hc => by cases c' <;> first | rfl | exact absurd rfl hc)).1

/-- **C3 counterexample.** With weight 10 on "atraso" and one breached
record, an exception right after the five scoring statements (e.g. inside
`pd.cut`, statement 7) returns `risco_score = 10` — not 0 — while
`risco_categoria` is filled with "Indefinido": the except branch only
creates columns that are still missing, it does not reset computed ones. -/
theorem c3_counterexample :
    (calcular_risco_exn ⟨[("atraso", 10)], 365⟩ [⟨some true, none, none, none, none⟩]
        6).score = some [10] ∧
    (calcular_risco_exn ⟨[("atraso", 10)], 365⟩ [⟨some true, none, none, none, none⟩]
        6).categoria = some [some "Indefinido"] ∧
    some [(10 : Int)] ≠ some [(0 : Int)] := by decide

/-- **C3 (amended).** When any exception interrupts `calcular_risco`, the
function returns (does not propagate): every output column the computation
had not yet created is filled with its default (score 0, category
"Indefinido", flags false, dimension "Indefinido") for the entire table,
while columns already created keep their computed values — in particular an
exception before any statement yields the all-default table, and an
exception after the scoring statements keeps the accumulated scores. -/
theorem c3_fallback_amended (cfg : RiscoConfig) (rs : List RiscoRow) (k : Nat) :
    ((calcular_risco_exn cfg rs k).score.isSome = true ∧
      (calcular_risco_exn cfg rs k).categoria.isSome = true ∧
      (calcular_risco_exn cfg rs k).tempo.isSome = true ∧
      (calcular_risco_exn cfg rs k).oper.isSome = true ∧
      (calcular_risco_exn cfg rs k).gov.isSome = true ∧
      (calcular_risco_exn cfg rs k).dim.isSome = true) ∧
    (∀ l, (calcular_risco_exn cfg rs k).score = some l → l.length = rs.length) ∧
    (∀ l, (calcular_risco_exn cfg rs k).categoria = some l → l.length = rs.length) ∧
    (∀ l, (calcular_risco_exn cfg rs k).dim = some l → l.length = rs.length) ∧
    (k = 0 → calcular_risco_exn cfg rs k =
      ⟨some (List.replicate rs.length 0),
        some (List.replicate rs.length (some "Indefinido")),
        some (List.replicate rs.length false), some (List.replicate rs.length false),
        some (List.replicate rs.length false),
        some (List.replicate rs.length "Indefinido")⟩) ∧
    (11 ≤ k → (calcular_risco_exn cfg rs k).score =
      some (rs.map (fun r => risco_score cfg r))) := by
  refine ⟨⟨?_, ?_, ?_, ?_, ?_, ?_⟩, ?_, ?_, ?_, ?_, ?_⟩
  · simp [calcular_risco_exn, risco_fill]
  · simp [calcular_risco_exn, risco_fill]
  · simp [calcular_risco_exn, risco_fill]
  · simp [calcular_risco_exn, risco_fill]
  · simp [calcular_risco_exn, risco_fill]
  · simp [calcular_risco_exn, risco_fill]
  · intro l hl
    simp only [calcular_risco_exn, risco_fill, risco_state, Option.some.injEq] at hl
    by_cases h1 : 1 ≤ k <;> simp [h1] at hl <;> simp [← hl]
  · intro l hl
    simp only [calcular_risco_exn, risco_fill, risco_state, Option.some.injEq] at hl
    by_cases h7 : 7 ≤ k <;> simp [h7] at hl <;> simp [← hl]
  · intro l hl
    simp only [calcular_risco_exn, risco_fill, risco_state, Option.some.injEq] at hl
    by_cases h11 : 11 ≤ k <;> simp [h11] at hl <;> simp [← hl]
  · intro hk; subst hk; rfl
  · intro h11
    have h1 : 1 ≤ k := by omega
    simp only [calcular_risco_exn, risco_fill, risco_state, h1, if_true, Option.getD_some,
      Option.some.injEq]
    exact List.map_congr_left (fun r _ => risco_score_upto_ge cfg (k - 1) r (by omega))

/-- Witness for C3 (amended): an exception at the very first statement
yields the all-default single-row table. -/
theorem c3_witness :
    calcular_risco_exn ⟨[], 365⟩ [⟨none, none, none, none, none⟩] 0 =
      ⟨some [0], some [some "Indefinido"], some [false], some [false], some [false],
        some ["Indefinido"]⟩ :=
  (c3_fallback_amended ⟨[], 365⟩ [⟨none, none, none, none, none⟩] 0).2.2.2.2.1 rfl

/-- Helper: the code's status map equals the amended keyword-group map
(the claimed map plus the accented keyword "análise"). -/
theorem map_status_eq_amd (txt : String) : map_status txt = spec_map_status_amd txt := by
  unfold map_status spec_map_status_amd kwAny
  simp only [List.any_cons, List.any_nil, Bool.or_false, Bool.or_assoc]

/-- **C7 counterexample.** The situation text "Em Análise" (stripped and
lowered to "em análise") is classified "Em andamento" by the code, which
also matches the accented keyword "análise"; the claim's keyword list
("andamento"/"analise"/"pendente") classifies it "Outro". -/
theorem c7_counterexample :
    criar_status_macro ["Situação do Processo"] [fun _ => some "Em Análise"] =
      ["Em andamento"] ∧
    spec_map_status (pyLower (pyStrip "Em Análise")) = "Outro" ∧
    ("Em andamento" : String) ≠ "Outro" := by decide

/-- **C7 (amended).** When a situation column resolves, `status_macro` is
derived per record by case-insensitive substring match with first-match-wins
precedence: "cancel" → "Cancelado"; else "indefer"/"defer"/"finaliz"/
"conclu" → "Concluído"; else "andamento"/"analise"/"análise"/"pendente" →
"Em andamento"; else "Outro"; when no situation column resolves, every
record gets "Indefinido". -/
theorem c7_status_macro_amended (cols : List String)
    (rows : List (String → Option String)) :
    (achar_coluna cols possiveis_status = none →
      criar_status_macro cols rows = rows.map (fun _ => "Indefinido")) ∧
    (∀ c, achar_coluna cols possiveis_status = some c →
      criar_status_macro cols rows =
        rows.map (fun r => spec_map_status_amd (pyLower (pyStrip (cellStr (r c)))))) ∧
    (∀ txt, map_status txt = spec_map_status_amd txt) := by
  refine ⟨?_, ?_, map_status_eq_amd⟩
  · intro h
    unfold criar_status_macro
    rw [h]
  · intro c hc
    unfold criar_status_macro
    rw [hc]
    simp only [map_status_eq_amd]

/-- Witness for C7 (amended), both resolution branches at concrete tables. -/
theorem c7_witness :
    criar_status_macro ["x"] [fun _ => some "cancelado"] = ["Indefinido"] ∧
    criar_status_macro ["Situação do Processo"] [fun _ => some "Foi Cancelado"] =
      ["Cancelado"] := by
  constructor
  · exact (c7_status_macro_amended ["x"] [fun _ => some "cancelado"]).1 (by decide)
  · exact (c7_status_macro_amended ["Situação do Processo"]
      [fun _ => some "Foi Cancelado"]).2.1 "Situação do Processo" (by decide)

/-- **C8.** `achar_coluna` returns the first actual column (in column order)
whose lowercased, stripped name equals the normalized form of some
candidate; it returns `none` exactly when no column matches; and candidate
lists equal up to normalization resolve to the same column. -/
theorem c8_achar_coluna (cols possiveis : List String) :
    (∀ c, achar_coluna cols possiveis = some c →
      ∃ l1 l2, cols = l1 ++ c :: l2 ∧
        (possiveis.map normName).contains (normName c) = true ∧
        ∀ x ∈ l1, (possiveis.map normName).contains (normName x) = false) ∧
    (achar_coluna cols possiveis = none ↔
      ∀ c ∈ cols, (possiveis.map normName).contains (normName c) = false) ∧
    (∀ possiveis', possiveis'.map normName = possiveis.map normName →
      achar_coluna cols possiveis' = achar_coluna cols possiveis) := by
  refine ⟨?_, ?_, ?_⟩
  · intro c
    induction cols with
    | nil => intro h; simp [achar_coluna] at h
    | cons hd tl ih =>
      intro h
      simp only [achar_coluna, List.find?] at h ih
      cases hp : (possiveis.map normName).contains (normName hd) with
      | true =>
        rw [hp] at h
        simp only [Option.some.injEq] at h
        subst h
        exact ⟨[], tl, rfl, hp, by simp⟩
      | false =>
        rw [hp] at h
        obtain ⟨l1, l2, rfl, hc, hall⟩ := ih h
        refine ⟨hd :: l1, l2, rfl, hc, ?_⟩
        intro x hx
        rcases List.mem_cons.mp hx with rfl | hx'
        · exact hp
        · exact hall x hx'
  · simp only [achar_coluna, List.find?_eq_none, Bool.not_eq_true]
  · intro possiveis' h
    simp only [achar_coluna]
    rw [h]

/-- Witness for C8: a case/whitespace variant of the candidate resolves to
the same (first) matching column. -/
theorem c8_witness :
    achar_coluna ["Foo", "  ÓRGÃO "] ["órgão  "] =
      achar_coluna ["Foo", "  ÓRGÃO "] ["Órgão"] ∧
    achar_coluna ["Foo", "  ÓRGÃO "] ["Órgão"] = some "  ÓRGÃO " :=
  ⟨(c8_achar_coluna ["Foo", "  ÓRGÃO "] ["Órgão"]).2.2 ["órgão  "] (by decide), by decide⟩

/-- **C5 counterexample.** Under a configuration with weight 1001 on
"atraso", a breached record's risk score is 1001, which falls outside every
`pd.cut` bin, so its `risco_categoria` is undefined (NaN) after the full
pipeline — classification is not total for every configuration of weights
(and the pipeline produces no `type_simplified` column at all). -/
theorem c5_counterexample :
    (pipeline ⟨10, [], 10000⟩ ⟨[("atraso", 1001)], 365⟩
        ⟨["Situação do Processo"],
         [fun c => if c = "Situação do Processo" then some "Em andamento" else none],
         some [400]⟩).map (fun p => p.risco.riscoCategoria) = [none] ∧
    (none : Option String).isSome = false := by decide

/-- **C5 (amended).** After the full pipeline every record has exactly one
`status_macro` (one of the five macro statuses) and one `sla_categoria`;
its `risco_categoria` is defined whenever its risk score lies in the fixed
bucketing range (−1, 1000] — in particular whenever the configured weights
are non-negative and sum to at most 1000.  The pipeline produces no
`type_simplified` column. -/
theorem c5_total_classification_amended (scfg : SlaConfig) (rcfg : RiscoConfig)
    (t : PTable) (p : PipeOut) (hp : p ∈ pipeline scfg rcfg t) :
    p.statusMacro ∈ ["Cancelado", "Concluído", "Em andamento", "Outro", "Indefinido"] ∧
    p.sla.slaCategoria ∈ ["Atraso Severo", "Atrasado", "Dentro do prazo"] ∧
    (-1 < p.risco.riscoScore → p.risco.riscoScore ≤ 1000 →
      (p.risco.riscoCategoria).isSome = true) := by
  unfold pipeline at hp
  obtain ⟨rls, hmem, rfl⟩ := List.mem_map.mp hp
  obtain ⟨rl, st⟩ := rls
  have hz := List.of_mem_zip hmem
  refine ⟨?_, ?_, ?_⟩
  · exact status_macro_mem t.cols t.rows st hz.2
  · exact sla_categoria_mem scfg _ rl.2
  · intro hlo hhi
    exact risco_cut_isSome _ hlo hhi

/-- Witness for C5 (amended) at the concrete table `tC5`. -/
theorem c5_witness :
    pC5.statusMacro ∈ ["Cancelado", "Concluído", "Em andamento", "Outro", "Indefinido"] ∧
    pC5.sla.slaCategoria ∈ ["Atraso Severo", "Atrasado", "Dentro do prazo"] ∧
    (pC5.risco.riscoCategoria).isSome = true := by
  have h := c5_total_classification_amended scfgC5 rcfgC5 tC5 pC5 (by decide)
  exact ⟨h.1, h.2.1, h.2.2 (by decide) (by decide)⟩

/-! Helper lemmas for the aggregator claim: behavior on a zero-row table
(whatever columns are present) and on tables missing an expected column. -/

theorem pyRoundInt_zero : pyRoundInt 0 = 0 := by
  have h0 : (0 : Rat).floor = 0 := rfl
  unfold pyRoundInt
  rw [h0]
  norm_num

theorem pyRound1_zero : pyRound1 0 = 0 := by
  unfold pyRound1
  rw [show ((0 : Rat) * 10) = 0 by ring, pyRoundInt_zero]
  norm_num

theorem pyRound2_zero : pyRound2 0 = 0 := by
  unfold pyRound2
  rw [show ((0 : Rat) * 100) = 0 by ring, pyRoundInt_zero]
  norm_num

theorem ratTrunc_zero : ratTrunc 0 = 0 := by decide

theorem kpis_executivos_empty (cols : List String) (lt : Option (List Int))
    (ab : Option (List Bool)) (sm : Option (List String)) (ma mb : Option (List Bool))
    (hab : ab = none ∨ ab = some []) (hsm : sm = none ∨ sm = some []) :
    calcular_kpis_executivos ⟨cols, [], lt, ab, sm, ma, mb⟩ = ⟨0, 0, 0, 0, 0, 0⟩ := by
  rcases hab with rfl | rfl <;> rcases hsm with rfl | rfl <;>
    cases hs : achar_coluna cols possiveis_status <;>
    simp [calcular_kpis_executivos, garantir_status_macro, garantir_atrasado,
      criar_status_macro, hs]

theorem kpis_avancados_empty (cols : List String) (lt : Option (List Int))
    (ab : Option (List Bool)) (sm : Option (List String)) (ma mb : Option (List Bool))
    (hma : ma = none ∨ ma = some []) (hmb : mb = none ∨ mb = some []) :
    calcular_kpis_avancados ⟨cols, [], lt, ab, sm, ma, mb⟩ = ⟨0, 0, 0, 0, 0, 0, 0, 0⟩ := by
  rcases hma with rfl | rfl <;> rcases hmb with rfl | rfl <;>
    cases hr : achar_coluna cols possiveis_resp_kpi <;> cases lt <;>
    simp [calcular_kpis_avancados, hr, pyRound1_zero, ratTrunc_zero]

theorem funil_operacional_empty (cols : List String) (lt : Option (List Int))
    (ab : Option (List Bool)) (sm : Option (List String)) (ma mb : Option (List Bool))
    (hsm : sm = none ∨ sm = some []) :
    funil_operacional ⟨cols, [], lt, ab, sm, ma, mb⟩ = [] := by
  rcases hsm with rfl | rfl <;> cases hs : achar_coluna cols possiveis_status <;>
    simp [funil_operacional, garantir_status_macro, criar_status_macro, valueCounts, hs]

theorem top_processos_empty (cols : List String) (lt : Option (List Int))
    (ab : Option (List Bool)) (sm : Option (List String)) (ma mb : Option (List Bool))
    (n : Nat) (hlt : lt = none ∨ lt = some []) :
    top_processos_criticos ⟨cols, [], lt, ab, sm, ma, mb⟩ n = [] := by
  rcases hlt with rfl | rfl <;> simp [top_processos_criticos]

theorem taxa_atraso_empty (cols : List String) (lt : Option (List Int))
    (ab : Option (List Bool)) (sm : Option (List String)) (ma mb : Option (List Bool))
    (coluna : String) :
    tabela_taxa_atraso_por ⟨cols, [], lt, ab, sm, ma, mb⟩ coluna = [] := by
  cases hc : cols.contains coluna <;> simp [tabela_taxa_atraso_por, hc]

theorem leadtime_por_empty (cols : List String) (lt : Option (List Int))
    (ab : Option (List Bool)) (sm : Option (List String)) (ma mb : Option (List Bool))
    (coluna : String) :
    tabela_leadtime_por ⟨cols, [], lt, ab, sm, ma, mb⟩ coluna = [] := by
  cases lt <;> cases hc : cols.contains coluna <;> simp [tabela_leadtime_por, hc]

theorem taxa_atraso_missing (t : ATable) (coluna : String)
    (h : t.cols.contains coluna = false) : tabela_taxa_atraso_por t coluna = [] := by
  unfold tabela_taxa_atraso_por
  rw [h]
  simp

theorem leadtime_por_missing (t : ATable) (coluna : String)
    (h : t.cols.contains coluna = false) : tabela_leadtime_por t coluna = [] := by
  unfold tabela_leadtime_por
  cases hl : t.leadTimes <;> simp [h]
  intro hmem
  exact absurd hmem (by simpa using h)

/-- **C9.** Every indicator aggregator (executive KPIs, advanced KPIs,
funnel, grouped breach-rate table, grouped lead-time table, top-critical
records), applied to a zero-row table (whatever columns are present) or to
a table missing an expected column, returns its empty or zero-valued
default; the embedded functions are total, so no exception escapes. -/
theorem c9_aggregators_degrade :
    (∀ (cols : List String) (lt : Option (List Int)) (ab : Option (List Bool))
        (sm : Option (List String)) (ma mb : Option (List Bool)),
      (lt = none ∨ lt = some []) → (ab = none ∨ ab = some []) →
      (sm = none ∨ sm = some []) → (ma = none ∨ ma = some []) →
      (mb = none ∨ mb = some []) →
      calcular_kpis_executivos ⟨cols, [], lt, ab, sm, ma, mb⟩ = ⟨0, 0, 0, 0, 0, 0⟩ ∧
      calcular_kpis_avancados ⟨cols, [], lt, ab, sm, ma, mb⟩ = ⟨0, 0, 0, 0, 0, 0, 0, 0⟩ ∧
      funil_operacional ⟨cols, [], lt, ab, sm, ma, mb⟩ = [] ∧
      (∀ n, top_processos_criticos ⟨cols, [], lt, ab, sm, ma, mb⟩ n = []) ∧
      (∀ coluna, tabela_taxa_atraso_por ⟨cols, [], lt, ab, sm, ma, mb⟩ coluna = []) ∧
      (∀ coluna, tabela_leadtime_por ⟨cols, [], lt, ab, sm, ma, mb⟩ coluna = [])) ∧
    (∀ (t : ATable) (coluna : String), t.cols.contains coluna = false →
      tabela_taxa_atraso_por t coluna = [] ∧ tabela_leadtime_por t coluna = []) ∧
    (∀ (t : ATable), t.leadTimes = none → ∀ n, top_processos_criticos t n = []) := by
  refine ⟨?_, ?_, ?_⟩
  · intro cols lt ab sm ma mb h1 h2 h3 h4 h5
    exact ⟨kpis_executivos_empty cols lt ab sm ma mb h2 h3,
      kpis_avancados_empty cols lt ab sm ma mb h4 h5,
      funil_operacional_empty cols lt ab sm ma mb h3,
      fun n => top_processos_empty cols lt ab sm ma mb n h1,
      fun coluna => taxa_atraso_empty cols lt ab sm ma mb coluna,
      fun coluna => leadtime_por_empty cols lt ab sm ma mb coluna⟩
  · intro t coluna h
    exact ⟨taxa_atraso_missing t coluna h, leadtime_por_missing t coluna h⟩
  · intro t h n
    unfold top_processos_criticos
    rw [h]

/-- Witness for C9 at concrete tables: a zero-row table and a table whose
grouping column is absent. -/
theorem c9_witness :
    calcular_kpis_executivos ⟨["G"], [], none, none, none, none, none⟩ =
      ⟨0, 0, 0, 0, 0, 0⟩ ∧
    tabela_taxa_atraso_por ⟨["G"], [fun _ => some "v"], none, none, none, none, none⟩
      "X" = [] := by
  constructor
  · exact (c9_aggregators_degrade.1 ["G"] none none none none none (Or.inl rfl)
      (Or.inl rfl) (Or.inl rfl) (Or.inl rfl) (Or.inl rfl)).1
  · exact (c9_aggregators_degrade.2.1
      ⟨["G"], [fun _ => some "v"], none, none, none, none, none⟩ "X" (by decide)).1

end Monitoramento
